import Mathlib

/-!
# Verification of the pgconnect specification against its source

Shallow embedding of the pgconnect Go package (files `config.go`,
`repository.go`): a configuration record with defaults, a connection
wrapper over the external mapping engine (GORM), and a generic
repository of data-access operations.  The external mapper and driver
are out of scope for the repository itself; where an operation's
behaviour is decided by the external engine, that engine is modelled
explicitly from its documented contract and marked as such.
-/

namespace Pgconnect

/-- A Go `error` value: either a base error message or an error wrapping
another (as produced by `fmt.Errorf` with the `%w` verb). -/
inductive GoError where
  | base (msg : String) : GoError
  | wrapped (msg : String) (inner : GoError) : GoError
deriving DecidableEq, Repr

/-- GORM's `logger.LogLevel` values (`Silent`, `Error`, `Warn`, `Info`). -/
inductive LogLevel where
  | silent
  | error
  | warn
  | info
deriving DecidableEq, Repr

/-- `Config` from `config.go`: database connection configuration. -/
structure Config where
  Host : String
  Port : String
  User : String
  Password : String
  DatabaseName : String
  SSLMode : String
  TimeZone : String
  MaxIdleConns : Int
  MaxOpenConns : Int
  LogLevel : LogLevel
deriving DecidableEq, Repr

/-- `DefaultConfig` from `config.go`: returns a `Config` with defaults. -/
def DefaultConfig : Config :=
  { Host := "localhost"
    Port := "5432"
    User := "postgres"
    Password := "postgres"
    DatabaseName := "postgres"
    SSLMode := "disable"
    TimeZone := "UTC"
    MaxIdleConns := 10
    MaxOpenConns := 100
    LogLevel := LogLevel.silent }

/-- Character-level model of Go's `fmt.Sprintf` restricted to the `%s`
verb: each `%s` in the format is replaced by the next argument. -/
def sprintfAux : List Char → List String → List Char
  | [], _ => []
  | '%' :: 's' :: rest, a :: as => a.data ++ sprintfAux rest as
  | '%' :: 's' :: rest, [] => '%' :: 's' :: sprintfAux rest []
  | c :: rest, as => c :: sprintfAux rest as

/-- Go's `fmt.Sprintf` with only `%s` verbs, on a list of string
arguments. -/
def sprintfS (fmt : String) (args : List String) : String :=
  ⟨sprintfAux fmt.data args⟩

/-- The driver connection string built by `New` (`repository.go`):
`fmt.Sprintf` applied to the seven configuration fields. -/
def dsnOf (cfg : Config) : String :=
  sprintfS "host=%s port=%s user=%s password=%s dbname=%s sslmode=%s TimeZone=%s"
    [cfg.Host, cfg.Port, cfg.User, cfg.Password, cfg.DatabaseName, cfg.SSLMode, cfg.TimeZone]

/-- A positional query argument bound to a filter expression (Go passes
these as `...interface{}`). -/
inductive GoValue where
  | str (s : String)
  | int (i : Int)
  | null
deriving DecidableEq, Repr

/-- The positional arguments of a filtered operation. -/
abbrev Args : Type := List GoValue

/-- A filter expression (`query interface{}` in Go): once bound to its
positional arguments by the mapping engine it denotes a row predicate. -/
abbrev Filter (T : Type) : Type := Args → T → Bool

/-- A GORM logger: the model keeps the one observable the core
configures, its verbosity level. -/
structure Logger where
  level : LogLevel
deriving DecidableEq, Repr

/-- Modelled from the spec: the external mapping engine's default
logger (`logger.Default`), whose documented default verbosity is warn. -/
def Logger.Default : Logger := { level := LogLevel.warn }

/-- Modelled from the spec: the external mapping engine's
`LogMode(level)` returns the logger set to the given verbosity. -/
def Logger.LogMode (l : Logger) (lvl : LogLevel) : Logger :=
  { l with level := lvl }

/-- `gorm.Config`: options handed to the mapping engine at open time.
The core sets only the logger. -/
structure GormConfig where
  logger : Logger
deriving DecidableEq, Repr

/-- The pooled `sql.DB` handle: pool limits plus the outcomes of its
liveness and shutdown probes (decided by the external driver). -/
structure SqlDB where
  maxIdleConns : Int
  maxOpenConns : Int
  connMaxLifetime : Int
  pingErr : Option GoError
  closeErr : Option GoError
deriving DecidableEq, Repr

/-- `sql.DB.SetMaxIdleConns` of the external driver: stores the idle
connection ceiling. -/
def SqlDB.SetMaxIdleConns (s : SqlDB) (n : Int) : SqlDB :=
  { s with maxIdleConns := n }

/-- `sql.DB.SetMaxOpenConns` of the external driver: stores the open
connection ceiling. -/
def SqlDB.SetMaxOpenConns (s : SqlDB) (n : Int) : SqlDB :=
  { s with maxOpenConns := n }

/-- `sql.DB.SetConnMaxLifetime` of the external driver: stores the
maximum connection lifetime (in nanoseconds, Go's `time.Duration`). -/
def SqlDB.SetConnMaxLifetime (s : SqlDB) (d : Int) : SqlDB :=
  { s with connMaxLifetime := d }

/-- Go's `time.Hour` as a `time.Duration` in nanoseconds. -/
def timeHour : Int := 3600000000000

/-- Model of a `gorm.DB` value: the query-builder state accumulated by
chained calls (conditions, offset, limit, pending error), the config
applied at open time, the pooled handle retrievable through `DB()`,
and the outcome the engine's schema migration would produce.  The rows
themselves live outside the handle (see `Table`). -/
structure GormDB (T : Type) where
  conds : List (T → Bool)
  qOffset : Int
  qLimit : Int
  errState : Option GoError
  config : GormConfig
  sqlHandle : Except GoError SqlDB
  migrateOutcome : Option GoError

/-- The database content for the mapped type `T`: the stored rows. -/
abbrev Table (T : Type) : Type := List T

namespace GormDB

variable {T : Type}

/-- The mapping engine's `Where(query, args...)`: binds the positional
arguments to the filter expression and appends the resulting predicate
to the builder's conditions. -/
def Where (g : GormDB T) (query : Filter T) (args : Args) : GormDB T :=
  { g with conds := g.conds ++ [query args] }

/-- The mapping engine's `Offset(n)`: records the offset clause. -/
def Offset (g : GormDB T) (n : Int) : GormDB T :=
  { g with qOffset := n }

/-- The mapping engine's `Limit(n)`: records the limit clause. -/
def Limit (g : GormDB T) (n : Int) : GormDB T :=
  { g with qLimit := n }

/-- The mapping engine's `Model(&model)` on the zero value `var model T`:
fixes the statement's model type; in this typed embedding the handle is
already at type `T`, so the builder state is unchanged. -/
def Model (g : GormDB T) : GormDB T := g

/-- The rows of the table satisfying every accumulated condition. -/
def rowsMatching (g : GormDB T) (tbl : Table T) : List T :=
  tbl.filter (fun row => g.conds.all (fun c => c row))

/-- Offset and limit clauses applied to a result set, with the
engine's defaults (offset 0, limit -1) meaning no clause. -/
def applyOffsetLimit (g : GormDB T) (rows : List T) : List T :=
  let rows := if 0 < g.qOffset then rows.drop g.qOffset.toNat else rows
  if 0 ≤ g.qLimit then rows.take g.qLimit.toNat else rows

/-- The mapping engine's `ErrRecordNotFound`. -/
def errRecordNotFound : GoError := GoError.base "record not found"

/-- The mapping engine's `Find(&results)`: loads every matching row,
after offset/limit; a pending chain error is returned unchanged. -/
def Find (g : GormDB T) (tbl : Table T) : List T × Option GoError :=
  match g.errState with
  | some e => ([], some e)
  | none => (g.applyOffsetLimit (g.rowsMatching tbl), none)

/-- The mapping engine's `First(&result)`: loads the first matching
row, or fails with `ErrRecordNotFound` on zero rows; a pending chain
error is returned unchanged. -/
def First (g : GormDB T) (tbl : Table T) : Option T × Option GoError :=
  match g.errState with
  | some e => (none, some e)
  | none =>
    match g.rowsMatching tbl with
    | [] => (none, some errRecordNotFound)
    | row :: _ => (some row, none)

/-- The primary-key metadata of the entity type `T`, owned by the
calling application and interpreted by the external mapping engine. -/
structure EntityDesc (T : Type) where
  key : T → Int

/-- The mapping engine's `First(&result, id)`: `First` with an extra
primary-key condition. -/
def FirstById (ent : EntityDesc T) (g : GormDB T) (tbl : Table T) (id : Int) :
    Option T × Option GoError :=
  First { g with conds := g.conds ++ [fun row => ent.key row == id] } tbl

/-- The mapping engine's `Create(&model)`: inserts one record; a
pending chain error is returned unchanged, leaving the table as is. -/
def CreateRow (g : GormDB T) (tbl : Table T) (model : T) :
    Table T × Option GoError :=
  match g.errState with
  | some e => (tbl, some e)
  | none => (tbl ++ [model], none)

/-- The mapping engine's `Save(&model)`: upserts by primary key —
replaces the rows carrying the model's key if any exist, inserts
otherwise. -/
def SaveRow (ent : EntityDesc T) (g : GormDB T) (tbl : Table T) (model : T) :
    Table T × Option GoError :=
  match g.errState with
  | some e => (tbl, some e)
  | none =>
    if tbl.any (fun row => ent.key row == ent.key model) then
      (tbl.map (fun row => if ent.key row == ent.key model then model else row), none)
    else
      (tbl ++ [model], none)

/-- The mapping engine's `Delete(&model)`: deletes the record matching
the model's primary key. -/
def DeleteRow (ent : EntityDesc T) (g : GormDB T) (tbl : Table T) (model : T) :
    Table T × Option GoError :=
  match g.errState with
  | some e => (tbl, some e)
  | none => (tbl.filter (fun row => !(ent.key row == ent.key model)), none)

/-- The mapping engine's `Count(&count)`: the number of matching rows;
a pending chain error is returned unchanged. -/
def CountRows (g : GormDB T) (tbl : Table T) : Int × Option GoError :=
  match g.errState with
  | some e => (0, some e)
  | none => ((g.rowsMatching tbl).length, none)

/-- Modelled from the spec: the external mapping engine's
`Transaction(fn)` (called by `WithTransaction`, whose body is only this
forwarding call): it invokes `fn` on a transactional handle derived
from the receiver, commits the callback's writes when `fn` returns no
error, and rolls them back (restoring the table) otherwise, returning
the callback's error to the caller. -/
def Transaction (g : GormDB T) (tbl : Table T)
    (fn : GormDB T → Table T → Table T × Option GoError) :
    Table T × Option GoError :=
  match fn g tbl with
  | (txTbl, none) => (txTbl, none)
  | (_, some e) => (tbl, some e)

/-- The mapping engine's `AutoMigrate(models...)`: forwards the entity
descriptors to schema synchronization; its outcome is decided by the
engine. -/
def AutoMigrateModels (g : GormDB T) (_models : List (EntityDesc T)) :
    Option GoError :=
  g.migrateOutcome

end GormDB

/-- `DB` from `repository.go`: a wrapper around `gorm.DB`. -/
structure DB (T : Type) where
  gorm : GormDB T

/-- The environment `New` runs in: whether the external `gorm.Open`
call fails, whether retrieving the pooled handle (`db.DB()`) fails,
the pooled handle prior to the pool settings, and the outcome schema
migration would have. -/
structure OpenEnv (T : Type) where
  openErr : Option GoError
  dbErr : Option GoError
  sqlDB0 : SqlDB
  migrateOutcome : Option GoError

/-- The external `gorm.Open(dialector, config)` call: fails when the
environment says so, and otherwise yields a fresh handle carrying the
supplied configuration and the pooled connection. -/
def gormOpen {T : Type} (env : OpenEnv T) (gcfg : GormConfig) :
    Except GoError (GormDB T) :=
  match env.openErr with
  | some e => Except.error e
  | none =>
    Except.ok
      { conds := []
        qOffset := 0
        qLimit := -1
        errState := none
        config := gcfg
        sqlHandle :=
          match env.dbErr with
          | some e => Except.error e
          | none => Except.ok env.sqlDB0
        migrateOutcome := env.migrateOutcome }

/-- `New` from `repository.go`: builds the connection string, opens the
mapper handle with a logger at the configured verbosity, wraps failures
of the open call and of pool-handle retrieval, applies the configured
idle/open limits and the fixed one-hour maximum connection lifetime,
and returns the wrapped handle. -/
def New {T : Type} (env : OpenEnv T) (cfg : Config) : Except GoError (DB T) :=
  let _dsn := dsnOf cfg
  let gormConfig : GormConfig := { logger := Logger.Default.LogMode cfg.LogLevel }
  match gormOpen env gormConfig with
  | Except.error err =>
    Except.error (GoError.wrapped "failed to connect to database" err)
  | Except.ok gdb =>
    match gdb.sqlHandle with
    | Except.error err =>
      Except.error (GoError.wrapped "failed to get database instance" err)
    | Except.ok sqlDB =>
      let sqlDB := sqlDB.SetMaxIdleConns cfg.MaxIdleConns
      let sqlDB := sqlDB.SetMaxOpenConns cfg.MaxOpenConns
      let sqlDB := sqlDB.SetConnMaxLifetime timeHour
      Except.ok { gorm := { gdb with sqlHandle := Except.ok sqlDB } }

namespace DB

variable {T : Type}

/-- `Ping` from `repository.go`: retrieves the pooled handle (failing
with that error unchanged) and issues the liveness probe. -/
def Ping (db : DB T) : Option GoError :=
  match db.gorm.sqlHandle with
  | Except.error e => some e
  | Except.ok sqlDB => sqlDB.pingErr

/-- `Close` from `repository.go`: retrieves the pooled handle (failing
with that error unchanged) and releases the pooled connections. -/
def Close (db : DB T) : Option GoError :=
  match db.gorm.sqlHandle with
  | Except.error e => some e
  | Except.ok sqlDB => sqlDB.closeErr

/-- `AutoMigrate` from `repository.go`: forwards the models to the
mapping engine's schema synchronization. -/
def AutoMigrate (db : DB T) (models : List (GormDB.EntityDesc T)) :
    Option GoError :=
  db.gorm.AutoMigrateModels models

/-- `WithTransaction` from `repository.go`: executes the given function
within a transaction by forwarding to the mapping engine's
`Transaction`. -/
def WithTransaction (db : DB T) (tbl : Table T)
    (fn : GormDB T → Table T → Table T × Option GoError) :
    Table T × Option GoError :=
  db.gorm.Transaction tbl fn

end DB

/-- `Repository` from `repository.go`: a generic repository over one
entity type, holding a reference to the shared connection. -/
structure Repository (T : Type) where
  db : DB T

/-- `NewRepository` from `repository.go`: creates a repository holding
the given connection. -/
def NewRepository {T : Type} (db : DB T) : Repository T :=
  { db := db }

namespace Repository

variable {T : Type}

/-- `Create`: inserts a new record (`r.db.Create(model).Error`).  The
first component is the repository as the call leaves it. -/
def Create (r : Repository T) (tbl : Table T) (model : T) :
    Repository T × Table T × Option GoError :=
  (r, r.db.gorm.CreateRow tbl model)

/-- `FindByID`: retrieves a record by ID (`r.db.First(result, id).Error`). -/
def FindByID (ent : GormDB.EntityDesc T) (r : Repository T) (tbl : Table T)
    (id : Int) : Repository T × Option T × Option GoError :=
  (r, GormDB.FirstById ent r.db.gorm tbl id)

/-- `FindAll`: retrieves all records (`r.db.Find(result).Error`). -/
def FindAll (r : Repository T) (tbl : Table T) :
    Repository T × List T × Option GoError :=
  (r, r.db.gorm.Find tbl)

/-- `FindWhere`: finds records matching the given conditions
(`r.db.Where(query, args...).Find(result).Error`). -/
def FindWhere (r : Repository T) (tbl : Table T) (query : Filter T)
    (args : Args) : Repository T × List T × Option GoError :=
  (r, (r.db.gorm.Where query args).Find tbl)

/-- `FindOne`: finds a single record matching the given conditions
(`r.db.Where(query, args...).First(result).Error`). -/
def FindOne (r : Repository T) (tbl : Table T) (query : Filter T)
    (args : Args) : Repository T × Option T × Option GoError :=
  (r, (r.db.gorm.Where query args).First tbl)

/-- `Update`: updates a record (`r.db.Save(model).Error`). -/
def Update (ent : GormDB.EntityDesc T) (r : Repository T) (tbl : Table T)
    (model : T) : Repository T × Table T × Option GoError :=
  (r, GormDB.SaveRow ent r.db.gorm tbl model)

/-- `Delete`: deletes a record (`r.db.Delete(model).Error`). -/
def Delete (ent : GormDB.EntityDesc T) (r : Repository T) (tbl : Table T)
    (model : T) : Repository T × Table T × Option GoError :=
  (r, GormDB.DeleteRow ent r.db.gorm tbl model)

/-- `Count`: counts records matching the given conditions; the source
takes the wrapper, rewraps it around a filtered handle when a query is
supplied, and counts on the (zero-value) model. -/
def Count (r : Repository T) (tbl : Table T) (query : Option (Filter T))
    (args : Args) : Repository T × Int × Option GoError :=
  let db := r.db
  let db :=
    match query with
    | some q => DB.mk (db.gorm.Where q args)
    | none => db
  (r, db.gorm.Model.CountRows tbl)

/-- The query chain `r.db.Offset(offset).Limit(pageSize)` built by
`Paginate`, with `offset := (page - 1) * pageSize`. -/
def paginateChain (r : Repository T) (page pageSize : Int) : GormDB T :=
  let offset := (page - 1) * pageSize
  (r.db.gorm.Offset offset).Limit pageSize

/-- `Paginate`: retrieves records with pagination
(`r.db.Offset(offset).Limit(pageSize).Find(result).Error`). -/
def Paginate (r : Repository T) (tbl : Table T) (page pageSize : Int) :
    Repository T × List T × Option GoError :=
  (r, (paginateChain r page pageSize).Find tbl)

end Repository

/-- The methods the source's `Repository` type exposes, in source
order (`repository.go`). -/
def repositoryOperations : List String :=
  ["Create", "FindByID", "FindAll", "FindWhere", "FindOne",
   "Update", "Delete", "Count", "Paginate"]

/-! Concrete sample values, used to evaluate the development on closed
inputs. -/

/-- A pooled handle with no limits set and healthy probes. -/
def sampleSql : SqlDB :=
  { maxIdleConns := 0, maxOpenConns := 0, connMaxLifetime := 0,
    pingErr := none, closeErr := none }

/-- A fresh, healthy mapper handle over `Int` rows. -/
def sampleGorm : GormDB Int :=
  { conds := [], qOffset := 0, qLimit := -1, errState := none,
    config := { logger := { level := LogLevel.silent } },
    sqlHandle := Except.ok sampleSql, migrateOutcome := none }

/-- A repository over the healthy handle. -/
def sampleRepo : Repository Int := NewRepository { gorm := sampleGorm }

/-- A sample filter: rows strictly greater than 1. -/
def sampleFilter : Filter Int := fun _ row => decide (1 < row)

/-- Identity primary key for `Int` rows. -/
def entInt : GormDB.EntityDesc Int := { key := fun n => n }

/-- An environment in which `gorm.Open` and `db.DB()` both succeed. -/
def sampleEnv : OpenEnv Int :=
  { openErr := none, dbErr := none, sqlDB0 := sampleSql,
    migrateOutcome := none }

/-- The pooled handle after `New` applies the default limits. -/
def samplePooledSql : SqlDB :=
  { maxIdleConns := 10, maxOpenConns := 100, connMaxLifetime := timeHour,
    pingErr := none, closeErr := none }

/-- The connection `New` returns in `sampleEnv` under `DefaultConfig`. -/
def sampleNewDb : DB Int :=
  { gorm :=
    { conds := [], qOffset := 0, qLimit := -1, errState := none,
      config := { logger := { level := LogLevel.silent } },
      sqlHandle := Except.ok samplePooledSql, migrateOutcome := none } }

/-- A transaction callback that appends a row and reports success. -/
def sampleFnOk : GormDB Int → Table Int → Table Int × Option GoError :=
  fun _ tbl => (tbl ++ [5], none)

/-- A transaction callback that appends a row and then fails. -/
def sampleFnErr : GormDB Int → Table Int → Table Int × Option GoError :=
  fun _ tbl => (tbl ++ [5], some (GoError.base "boom"))

/-- A repository whose chain already carries a pending error. -/
def errRepo : Repository Int :=
  NewRepository { gorm := { sampleGorm with errState := some (GoError.base "boom") } }

/-- A connection whose pooled handle cannot be retrieved and whose
migration fails. -/
def failDb : DB Int :=
  { gorm := { sampleGorm with
      sqlHandle := Except.error (GoError.base "boom"),
      migrateOutcome := some (GoError.base "boom") } }

/-- An environment in which the external `gorm.Open` call fails. -/
def envOpenFail : OpenEnv Int :=
  { openErr := some (GoError.base "boom"), dbErr := none,
    sqlDB0 := sampleSql, migrateOutcome := none }

end Pgconnect

namespace Pgconnect

/-- C2: `DefaultConfig()` returns exactly the documented defaults:
host `localhost`, port `5432`, user `postgres`, password `postgres`,
database `postgres`, sslmode `disable`, timezone `UTC`, 10 idle
connections, 100 open connections, and the silent log level. -/
theorem defaultConfig_matches_documented_defaults :
    DefaultConfig.Host = "localhost" ∧
    DefaultConfig.Port = "5432" ∧
    DefaultConfig.User = "postgres" ∧
    DefaultConfig.Password = "postgres" ∧
    DefaultConfig.DatabaseName = "postgres" ∧
    DefaultConfig.SSLMode = "disable" ∧
    DefaultConfig.TimeZone = "UTC" ∧
    DefaultConfig.MaxIdleConns = 10 ∧
    DefaultConfig.MaxOpenConns = 100 ∧
    DefaultConfig.LogLevel = LogLevel.silent := by
  refine ⟨rfl, rfl, rfl, rfl, rfl, rfl, rfl, rfl, rfl, rfl⟩

/-- C3: for every configuration, the connection string built by `New`
is exactly `host=<H> port=<P> user=<U> password=<Pw> dbname=<D>
sslmode=<S> TimeZone=<T>`, the seven keys in that order, each value
taken from the corresponding field. -/
theorem dsnOf_eq_concat (cfg : Config) :
    dsnOf cfg =
      "host=" ++ cfg.Host ++ " port=" ++ cfg.Port ++ " user=" ++ cfg.User ++
      " password=" ++ cfg.Password ++ " dbname=" ++ cfg.DatabaseName ++
      " sslmode=" ++ cfg.SSLMode ++ " TimeZone=" ++ cfg.TimeZone := by
  show String.mk _ = _
  simp [dsnOf, sprintfS, sprintfAux, String.ext_iff, String.data_append]

/-- C1 (counterexample): the source's `Repository` does not expose a
delete-by-filter operation (`DeleteWhere`) nor a filtered-pagination
operation (`PaginateWhere`): neither is among its methods. -/
theorem repo_ops_missing_delete_paginate_where :
    ¬ ("DeleteWhere" ∈ repositoryOperations ∧
       "PaginateWhere" ∈ repositoryOperations) := by
  decide

/-- C1 (amended): the generic `Repository` exposes exactly create
(`Create`), read by id (`FindByID`), read all (`FindAll`), filtered
read (`FindWhere`), single-match read (`FindOne`), update (`Update`),
delete (`Delete`), count (`Count`) and pagination (`Paginate`); it has
no delete-by-filter (`DeleteWhere`) and no filtered pagination
(`PaginateWhere`). -/
theorem repositoryOperations_exact :
    repositoryOperations =
      ["Create", "FindByID", "FindAll", "FindWhere", "FindOne",
       "Update", "Delete", "Count", "Paginate"] ∧
    "DeleteWhere" ∉ repositoryOperations ∧
    "PaginateWhere" ∉ repositoryOperations := by
  refine ⟨rfl, by decide, by decide⟩

/-- C4: `Paginate` computes the offset as `(page - 1) * pageSize` with
1-based page numbers, requests exactly `pageSize` records from that
offset, and performs no guard or correction for non-positive inputs:
the formula holds for every page and page size, the call is exactly a
`Find` on that chain, and page 0 yields a negative offset handed to the
mapper. -/
theorem paginate_offset_formula {T : Type} (r : Repository T) (tbl : Table T)
    (page pageSize : Int) :
    (Repository.paginateChain r page pageSize).qOffset = (page - 1) * pageSize ∧
    (Repository.paginateChain r page pageSize).qLimit = pageSize ∧
    Repository.Paginate r tbl page pageSize
      = (r, (Repository.paginateChain r page pageSize).Find tbl) ∧
    (0 < pageSize → (Repository.paginateChain r 0 pageSize).qOffset < 0) := by
  refine ⟨rfl, rfl, rfl, ?_⟩
  intro h
  show (0 - 1 : Int) * pageSize < 0
  have hneg : (0 - 1 : Int) * pageSize = -pageSize := by ring
  omega

/-- C4 (witness): with page 0 and page size 5, the offset handed to
the mapper is negative. -/
theorem paginate_offset_formula_witness :
    (0 : Int) < 5 ∧ (Repository.paginateChain sampleRepo 0 5).qOffset < 0 :=
  ⟨by decide, (paginate_offset_formula sampleRepo [] 0 5).2.2.2 (by decide)⟩

/-- C5: on a repository whose handle carries no prior conditions and no
pending error, `Count` counts exactly the rows matching the caller's
filter bound to its arguments when a (non-nil) filter is supplied, and
counts all rows when none is. -/
theorem count_filtered_iff_query_given {T : Type} (r : Repository T)
    (tbl : Table T) (q : Filter T) (args : Args)
    (hconds : r.db.gorm.conds = []) (herr : r.db.gorm.errState = none) :
    Repository.Count r tbl (some q) args
      = (r, ((tbl.filter (q args)).length : Int), none) ∧
    Repository.Count r tbl none args = (r, (tbl.length : Int), none) := by
  constructor
  · simp [Repository.Count, GormDB.Model, GormDB.CountRows, GormDB.Where,
      GormDB.rowsMatching, hconds, herr]
  · simp [Repository.Count, GormDB.Model, GormDB.CountRows,
      GormDB.rowsMatching, hconds, herr]

/-- C5 (witness): on the table `[1, 2, 3]` with the filter `1 < row`,
`Count` yields 2 filtered and 3 unfiltered. -/
theorem count_filtered_iff_query_given_witness :
    sampleRepo.db.gorm.conds = [] ∧
    sampleRepo.db.gorm.errState = none ∧
    (Repository.Count sampleRepo [1, 2, 3] (some sampleFilter) []
        = (sampleRepo, ((([1, 2, 3] : Table Int).filter (sampleFilter [])).length : Int), none) ∧
     Repository.Count sampleRepo [1, 2, 3] none []
        = (sampleRepo, (([1, 2, 3] : Table Int).length : Int), none)) :=
  ⟨rfl, rfl, count_filtered_iff_query_given sampleRepo [1, 2, 3] sampleFilter [] rfl rfl⟩

/-- C6: `WithTransaction(fn)` hands `fn` the underlying handle inside a
transactional scope; when `fn` reports no error its writes are
committed (the resulting table is exactly the one `fn` produced) and no
error is returned; when `fn` reports an error the writes are rolled
back (the table is unchanged) and `fn`'s error is returned to the
caller. -/
theorem withTransaction_commit_or_rollback {T : Type} (db : DB T)
    (tbl : Table T) (fn : GormDB T → Table T → Table T × Option GoError) :
    (∀ txTbl, fn db.gorm tbl = (txTbl, none) →
        DB.WithTransaction db tbl fn = (txTbl, none)) ∧
    (∀ txTbl e, fn db.gorm tbl = (txTbl, some e) →
        DB.WithTransaction db tbl fn = (tbl, some e)) := by
  constructor
  · intro txTbl hfn
    simp [DB.WithTransaction, GormDB.Transaction, hfn]
  · intro txTbl e hfn
    simp [DB.WithTransaction, GormDB.Transaction, hfn]

/-- C6 (witness): a succeeding callback's appended row is visible after
the call, an erroring callback's appended row is not, and the error
comes back. -/
theorem withTransaction_commit_or_rollback_witness :
    sampleFnOk sampleNewDb.gorm [1] = ([1, 5], none) ∧
    DB.WithTransaction sampleNewDb [1] sampleFnOk = ([1, 5], none) ∧
    sampleFnErr sampleNewDb.gorm [1] = ([1, 5], some (GoError.base "boom")) ∧
    DB.WithTransaction sampleNewDb [1] sampleFnErr
      = ([1], some (GoError.base "boom")) :=
  ⟨rfl,
   (withTransaction_commit_or_rollback sampleNewDb [1] sampleFnOk).1 [1, 5] rfl,
   rfl,
   (withTransaction_commit_or_rollback sampleNewDb [1] sampleFnErr).2 [1, 5]
     (GoError.base "boom") rfl⟩

/-- C7: whenever `New` succeeds, the pooled handle of the returned
connection carries the configuration's idle and open connection limits,
and a maximum connection lifetime of exactly one hour
(`time.Hour` = 3600000000000 ns) — the same constant for every
configuration, so no field can change it. -/
theorem new_pool_settings {T : Type} (env : OpenEnv T) (cfg : Config)
    (db : DB T) (s : SqlDB) (h : New env cfg = Except.ok db)
    (hs : db.gorm.sqlHandle = Except.ok s) :
    s.maxIdleConns = cfg.MaxIdleConns ∧
    s.maxOpenConns = cfg.MaxOpenConns ∧
    s.connMaxLifetime = timeHour ∧
    timeHour = 3600000000000 := by
  obtain ⟨oe, de, s0, mo⟩ := env
  cases oe <;> cases de <;>
    simp [New, gormOpen, SqlDB.SetMaxIdleConns, SqlDB.SetMaxOpenConns,
      SqlDB.SetConnMaxLifetime] at h
  subst h
  simp at hs
  subst hs
  exact ⟨rfl, rfl, rfl, rfl⟩

/-- C7 (witness): `New` in a healthy environment under the default
configuration yields a pooled handle with 10 idle connections, 100 open
connections, and a one-hour lifetime. -/
theorem new_pool_settings_witness :
    New sampleEnv DefaultConfig = Except.ok sampleNewDb ∧
    sampleNewDb.gorm.sqlHandle = Except.ok samplePooledSql ∧
    (samplePooledSql.maxIdleConns = DefaultConfig.MaxIdleConns ∧
     samplePooledSql.maxOpenConns = DefaultConfig.MaxOpenConns ∧
     samplePooledSql.connMaxLifetime = timeHour ∧
     timeHour = 3600000000000) :=
  ⟨rfl, rfl, new_pool_settings sampleEnv DefaultConfig sampleNewDb samplePooledSql rfl rfl⟩

/-- C9: no repository operation changes the repository value: the
repository handed back by every operation is the one the call received,
whose `db` is the reference stored by `NewRepository` — in particular
`Count`, which wraps the filtered handle in a fresh `DB` value instead
of reassigning the stored one. -/
theorem repository_ops_frame {T : Type} (ent : GormDB.EntityDesc T)
    (db0 : DB T) (r : Repository T) (tbl : Table T) (model : T) (id : Int)
    (q : Filter T) (oq : Option (Filter T)) (args : Args)
    (page pageSize : Int) :
    (NewRepository db0).db = db0 ∧
    (Repository.Create r tbl model).1 = r ∧
    (Repository.FindByID ent r tbl id).1 = r ∧
    (Repository.FindAll r tbl).1 = r ∧
    (Repository.FindWhere r tbl q args).1 = r ∧
    (Repository.FindOne r tbl q args).1 = r ∧
    (Repository.Update ent r tbl model).1 = r ∧
    (Repository.Delete ent r tbl model).1 = r ∧
    (Repository.Count r tbl oq args).1 = r ∧
    (Repository.Paginate r tbl page pageSize).1 = r :=
  ⟨rfl, rfl, rfl, rfl, rfl, rfl, rfl, rfl, rfl, rfl⟩

/-- C10: whenever `New` succeeds, the mapping engine's logger on the
returned connection is at exactly the configuration's verbosity level. -/
theorem new_applies_config_loglevel {T : Type} (env : OpenEnv T)
    (cfg : Config) (db : DB T) (h : New env cfg = Except.ok db) :
    db.gorm.config.logger.level = cfg.LogLevel := by
  obtain ⟨oe, de, s0, mo⟩ := env
  cases oe <;> cases de <;>
    simp [New, gormOpen, Logger.LogMode, Logger.Default] at h
  subst h
  rfl

/-- C10 (witness): `New` in a healthy environment under the default
configuration yields a connection whose logger is at the default
(silent) level. -/
theorem new_applies_config_loglevel_witness :
    New sampleEnv DefaultConfig = Except.ok sampleNewDb ∧
    sampleNewDb.gorm.config.logger.level = DefaultConfig.LogLevel :=
  ⟨rfl, new_applies_config_loglevel sampleEnv DefaultConfig sampleNewDb rfl⟩

/-- C8 (counterexample): `New` does not return the underlying open
error unchanged: when the external open call fails with `boom`, `New`
returns that error wrapped in a `failed to connect to database`
message. -/
theorem new_wraps_underlying_error :
    New envOpenFail DefaultConfig ≠ Except.error (GoError.base "boom") ∧
    New envOpenFail DefaultConfig
      = Except.error (GoError.wrapped "failed to connect to database"
          (GoError.base "boom")) := by
  constructor
  · intro h
    simp only [show New envOpenFail DefaultConfig
        = Except.error (GoError.wrapped "failed to connect to database"
            (GoError.base "boom")) from rfl,
      Except.error.injEq] at h
    exact GoError.noConfusion h
  · rfl

/-- C8 (amended): every `Repository` operation and the `Connection`
methods `Ping`, `Close`, `AutoMigrate` and `WithTransaction` return the
error produced by the underlying mapper/driver call to their immediate
caller unchanged, on every input on which that call fails; `New` is the
exception, wrapping open and pool-retrieval failures in descriptive
messages. -/
theorem ops_return_underlying_error_unchanged {T : Type}
    (ent : GormDB.EntityDesc T) (r : Repository T) (tbl : Table T)
    (model : T) (id : Int) (q : Filter T) (oq : Option (Filter T))
    (args : Args) (page pageSize : Int) (db : DB T) (s : SqlDB)
    (models : List (GormDB.EntityDesc T))
    (fn : GormDB T → Table T → Table T × Option GoError) (e : GoError) :
    (r.db.gorm.errState = some e →
      (Repository.Create r tbl model).2.2 = some e ∧
      (Repository.FindByID ent r tbl id).2.2 = some e ∧
      (Repository.FindAll r tbl).2.2 = some e ∧
      (Repository.FindWhere r tbl q args).2.2 = some e ∧
      (Repository.FindOne r tbl q args).2.2 = some e ∧
      (Repository.Update ent r tbl model).2.2 = some e ∧
      (Repository.Delete ent r tbl model).2.2 = some e ∧
      (Repository.Count r tbl oq args).2.2 = some e ∧
      (Repository.Paginate r tbl page pageSize).2.2 = some e) ∧
    (db.gorm.sqlHandle = Except.error e →
      DB.Ping db = some e ∧ DB.Close db = some e) ∧
    (db.gorm.sqlHandle = Except.ok s →
      DB.Ping db = s.pingErr ∧ DB.Close db = s.closeErr) ∧
    (db.gorm.migrateOutcome = some e → DB.AutoMigrate db models = some e) ∧
    (∀ txTbl, fn db.gorm tbl = (txTbl, some e) →
      DB.WithTransaction db tbl fn = (tbl, some e)) := by
  refine ⟨?_, ?_, ?_, ?_, ?_⟩
  · intro herr
    refine ⟨?_, ?_, ?_, ?_, ?_, ?_, ?_, ?_, ?_⟩
    · simp [Repository.Create, GormDB.CreateRow, herr]
    · simp [Repository.FindByID, GormDB.FirstById, GormDB.First, herr]
    · simp [Repository.FindAll, GormDB.Find, herr]
    · simp [Repository.FindWhere, GormDB.Where, GormDB.Find, herr]
    · simp [Repository.FindOne, GormDB.Where, GormDB.First, herr]
    · simp [Repository.Update, GormDB.SaveRow, herr]
    · simp [Repository.Delete, GormDB.DeleteRow, herr]
    · cases oq <;>
        simp [Repository.Count, GormDB.Model, GormDB.CountRows, GormDB.Where, herr]
    · simp [Repository.Paginate, Repository.paginateChain, GormDB.Offset,
        GormDB.Limit, GormDB.Find, herr]
  · intro hs
    exact ⟨by simp [DB.Ping, hs], by simp [DB.Close, hs]⟩
  · intro hs
    exact ⟨by simp [DB.Ping, hs], by simp [DB.Close, hs]⟩
  · intro hm
    simp [DB.AutoMigrate, GormDB.AutoMigrateModels, hm]
  · intro txTbl hfn
    simp [DB.WithTransaction, GormDB.Transaction, hfn]

/-- C8 (witness): on a repository whose chain carries a pending error
`boom`, every operation returns exactly `boom`; on a connection whose
pooled handle cannot be retrieved, `Ping`, `Close` return exactly that
error, `AutoMigrate` returns the engine's migration error, an erroring
transaction callback's error comes back unchanged, and a healthy
connection's `Ping` and `Close` report the probes' outcomes. -/
theorem ops_return_underlying_error_unchanged_witness :
    ((Repository.Create errRepo [1] 0).2.2 = some (GoError.base "boom") ∧
     (Repository.FindByID entInt errRepo [1] 0).2.2 = some (GoError.base "boom") ∧
     (Repository.FindAll errRepo [1]).2.2 = some (GoError.base "boom") ∧
     (Repository.FindWhere errRepo [1] sampleFilter []).2.2 = some (GoError.base "boom") ∧
     (Repository.FindOne errRepo [1] sampleFilter []).2.2 = some (GoError.base "boom") ∧
     (Repository.Update entInt errRepo [1] 0).2.2 = some (GoError.base "boom") ∧
     (Repository.Delete entInt errRepo [1] 0).2.2 = some (GoError.base "boom") ∧
     (Repository.Count errRepo [1] (some sampleFilter) []).2.2 = some (GoError.base "boom") ∧
     (Repository.Paginate errRepo [1] 1 10).2.2 = some (GoError.base "boom")) ∧
    (DB.Ping failDb = some (GoError.base "boom") ∧
     DB.Close failDb = some (GoError.base "boom")) ∧
    DB.AutoMigrate failDb [] = some (GoError.base "boom") ∧
    DB.WithTransaction failDb [1] sampleFnErr = ([1], some (GoError.base "boom")) ∧
    (DB.Ping sampleNewDb = samplePooledSql.pingErr ∧
     DB.Close sampleNewDb = samplePooledSql.closeErr) := by
  have h1 := ops_return_underlying_error_unchanged entInt errRepo [1] 0 0
    sampleFilter (some sampleFilter) [] 1 10 failDb samplePooledSql []
    sampleFnErr (GoError.base "boom")
  have h2 := ops_return_underlying_error_unchanged entInt errRepo [1] 0 0
    sampleFilter (some sampleFilter) [] 1 10 sampleNewDb samplePooledSql []
    sampleFnErr (GoError.base "boom")
  exact ⟨h1.1 rfl, h1.2.1 rfl, h1.2.2.2.1 rfl, h1.2.2.2.2 [1, 5] rfl,
    h2.2.2.1 rfl⟩

end Pgconnect
